import Mathlib

/-!
Verification development for the SafeGuard incident and escort lifecycle
backend (src/backend/server.py, src/backend/services.py).

The MongoDB document store is modelled as explicit in-memory lists of
records; `find_one` is `List.find?` over insertion order, `update_one`
updates the first matching record, `delete_one` deletes the first
matching record, and `insert_one` appends a record carrying a fresh id.
Times are rationals (seconds); geographic coordinates are rationals
(degrees).  MongoDB 2dsphere `$near` queries are modelled as an explicit
query-result argument constrained by a proposition stating the query
contract (membership by great-circle distance, using the haversine
formula of server.py `calculate_distance`); real-number trigonometry has
no executable representation, so the distance condition lives only in
propositions while every state operation stays computable.
-/

namespace SafeGuard

/-- A GeoJSON point; server.py stores coordinates as [longitude, latitude]. -/
structure GeoPoint where
  longitude : ℚ
  latitude : ℚ
  deriving Repr, DecidableEq

/-- The LocationPoint request model of server.py (lines 66-71): latitude,
longitude, optional accuracy, a client-supplied timestamp (defaulting to
the parse-time clock, here always explicit), and an optional emergency
category used by panic activation. -/
structure LocationPoint where
  latitude : ℚ
  longitude : ℚ
  accuracy : Option ℚ
  timestamp : ℚ
  emergency_category : Option String
  deriving Repr, DecidableEq

/-- One entry of a panic trail, as pushed by server.py lines 426-431 and
483-488: latitude, longitude, accuracy, timestamp. -/
structure PanicTrailEntry where
  latitude : ℚ
  longitude : ℚ
  accuracy : Option ℚ
  timestamp : ℚ
  deriving Repr, DecidableEq

/-- One entry of an escort trail, as pushed by server.py lines 560-564:
latitude, longitude, timestamp (no accuracy field). -/
structure EscortTrailEntry where
  latitude : ℚ
  longitude : ℚ
  timestamp : ℚ
  deriving Repr, DecidableEq

/-- A document of the panic_events collection (server.py lines 417-432):
the seed GeoJSON `location` is the activation point and `locations` is
the trail. -/
structure PanicEvent where
  id : Nat
  user_id : String
  activated_at : ℚ
  is_active : Bool
  emergency_category : String
  location : GeoPoint
  locations : List PanicTrailEntry
  deactivated_at : Option ℚ
  deriving Repr, DecidableEq

/-- A document of the escort_sessions collection (server.py lines 508-517). -/
structure EscortSession where
  id : Nat
  user_id : String
  started_at : ℚ
  is_active : Bool
  currentLocation : GeoPoint
  locations : List EscortTrailEntry
  ended_at : Option ℚ
  delete_at : Option ℚ
  deriving Repr, DecidableEq

/-- A document of the civil_tracks collection (server.py lines 521-530),
the live-tracking projection of an escort session. -/
structure CivilTrack where
  user_id : String
  session_id : Nat
  currentLocation : GeoPoint
  track_timestamp : ℚ
  is_active : Bool
  deriving Repr, DecidableEq

/-- A document of the security_teams collection (server.py lines 279-287):
only user_id, teamLocation and radius_km; visibility and status live on
the users collection, not here. -/
structure SecurityTeam where
  user_id : String
  teamLocation : GeoPoint
  radius_km : ℚ
  deriving Repr, DecidableEq

/-- The fields of a users document that the lifecycle endpoints read:
role, premium flag, security status and visibility (server.py lines
255-272 and 1484-1490), push token, email. -/
structure User where
  id : String
  role : String
  is_premium : Bool
  status : String
  is_visible : Bool
  push_token : Option String
  email : Option String
  deriving Repr, DecidableEq

/-- The database state: the collections the lifecycle endpoints touch,
plus a fresh-ObjectId supply for insert_one. -/
structure DB where
  users : List User
  panic_events : List PanicEvent
  escort_sessions : List EscortSession
  civil_tracks : List CivilTrack
  security_teams : List SecurityTeam
  nextId : Nat
  deriving Repr, DecidableEq

/-- An HTTPException of FastAPI: status code and detail string. -/
structure HErr where
  status : Nat
  detail : String
  deriving Repr, DecidableEq

/-- Mongo update_one semantics: apply f to the first record satisfying p,
leave everything else untouched. -/
def updateFirst (p : α → Bool) (f : α → α) : List α → List α
  | [] => []
  | x :: xs => if p x then f x :: xs else x :: updateFirst p f xs

/-- Mongo delete_one semantics: remove the first record satisfying p. -/
def deleteFirst (p : α → Bool) : List α → List α
  | [] => []
  | x :: xs => if p x then xs else x :: deleteFirst p xs

/-- A Python dict value appearing in the push-service results (string or
integer valued). -/
inductive PyVal where
  | s (v : String)
  | n (v : Nat)
  deriving Repr, DecidableEq

/-- Python dict lookup: d[k] succeeds with the value when the key is
present and raises KeyError (here: none) otherwise. -/
def dictGet (d : List (String × PyVal)) (k : String) : Option PyVal :=
  (d.find? (fun kv => kv.1 == k)).map (fun kv => kv.2)

/-- Python str.startswith, on the character sequences of the two
strings. -/
def strStartsWith (s pre : String) : Bool :=
  pre.data.isPrefixOf s.data

/-- The keyword arguments with which server.py line 199 calls
expo_push_service.send_push_notification: tokens, title, body, data and
additionally priority='high'. -/
structure ExpoSendKwargs where
  tokens : List String
  title : String
  body : String
  data : List (String × PyVal)
  priority : Option String
  deriving Repr, DecidableEq

/-- The body of ExpoPushService.send_push_notification (services.py lines
125-168), as the dict it returns.  tokens empty gives no_tokens; tokens
that do not start with ExponentPushToken are dropped; an empty message
list gives no_valid_tokens; otherwise one batch HTTP POST is made, whose
outcome is abstracted by transport200: a 200 response reports the whole
batch as sent (sent_to = number of messages), anything else reports
status error with sent_to 0.  There is no per-recipient accounting and
no skipped count. -/
def expoServiceSend (tokens : List String) (transport200 : Bool) :
    List (String × PyVal) :=
  if tokens.isEmpty then [("status", .s "no_tokens"), ("sent_to", .n 0)]
  else
    let messages := tokens.filter (fun t => strStartsWith t "ExponentPushToken")
    if messages.isEmpty then [("status", .s "no_valid_tokens"), ("sent_to", .n 0)]
    else if transport200 then [("status", .s "sent"), ("sent_to", .n messages.length)]
    else [("status", .s "error"), ("sent_to", .n 0)]

/-- Python call semantics for the service method: services.py line 125
declares send_push_notification(self, tokens, title, body, data=None),
so a call passing the extra keyword argument priority raises TypeError
before the body runs; otherwise the body executes. -/
def callExpoServiceSend (kw : ExpoSendKwargs) (transport200 : Bool) :
    Except String (List (String × PyVal)) :=
  if kw.priority.isSome then
    .error "TypeError: send_push_notification() got an unexpected keyword argument priority"
  else
    .ok (expoServiceSend kw.tokens transport200)

/-- The summary dict returned by server.py send_push_notification: a
status string, the sent_to count, and the failed count or error string
when the corresponding branch produces one.  No branch produces a
skipped count. -/
structure PushSummary where
  status : String
  sent_to : Nat
  failed : Option Nat
  error : Option String
  deriving Repr, DecidableEq

/-- The token query of server.py lines 187-192: the users among user_ids
whose push_token exists and is not None, in collection order, mapped to
their tokens. -/
def tokensFor (users : List User) (user_ids : List String) : List String :=
  (users.filter (fun u => user_ids.contains u.id && u.push_token.isSome)).filterMap
    (fun u => u.push_token)

/-- server.py send_push_notification (lines 183-212).  When some tokens
exist, the Expo service is invoked with the extra priority keyword
(line 204), which raises TypeError; were a result returned, lines
207-208 would read result['success'] and result['failed'], keys the
service dict never contains, raising KeyError.  Both exceptions are
caught by the enclosing try/except, which returns the error summary
with sent_to 0. -/
def send_push_notification (users : List User) (user_ids : List String)
    (title body : String) (data : List (String × PyVal)) (transport200 : Bool) :
    PushSummary :=
  let tokens := tokensFor users user_ids
  if tokens.isEmpty then { status := "no_tokens", sent_to := 0, failed := none, error := none }
  else
    match callExpoServiceSend
        { tokens := tokens, title := title, body := body, data := data,
          priority := some "high" } transport200 with
    | .error e => { status := "error", sent_to := 0, failed := none, error := some e }
    | .ok result =>
      match dictGet result "success", dictGet result "failed" with
      | some (.n s), some (.n f) =>
        { status := "sent", sent_to := s, failed := some f, error := none }
      | _, _ =>
        { status := "error", sent_to := 0, failed := none, error := some "KeyError" }

/-- The 2dsphere $near / $maxDistance filter condition, modelled with the
great-circle distance of server.py calculate_distance (lines 156-168:
haversine with R = 6371 km, degree inputs converted by radians), scaled
to meters.  Real trigonometry is not executable, so this condition is a
proposition used to constrain query results in theorems. -/
def sphereDistLeM (p q : GeoPoint) (maxMeters : ℚ) : Prop :=
  6371 * (2 * Real.arcsin (Real.sqrt (
      Real.sin ((((q.latitude - p.latitude : ℚ) : ℝ) * Real.pi / 180) / 2) ^ 2 +
      Real.cos (((p.latitude : ℚ) : ℝ) * Real.pi / 180) *
        Real.cos (((q.latitude : ℚ) : ℝ) * Real.pi / 180) *
        Real.sin ((((q.longitude - p.longitude : ℚ) : ℝ) * Real.pi / 180) / 2) ^ 2)))
    * 1000 ≤ (maxMeters : ℝ)

/-- Contract of the security_teams $near query of server.py lines 436-443:
the result holds exactly the teams whose teamLocation lies within
maxMeters of the center.  The ascending-distance ordering that $near
also guarantees is not needed by any claim and is left unconstrained. -/
def teamsNearOK (teams : List SecurityTeam) (center : GeoPoint) (maxMeters : ℚ)
    (res : List SecurityTeam) : Prop :=
  (∀ t ∈ res, t ∈ teams ∧ sphereDistLeM center t.teamLocation maxMeters) ∧
  (∀ t ∈ teams, sphereDistLeM center t.teamLocation maxMeters → t ∈ res)

/-- Contract of the panic_events geospatial query of server.py lines
900-908: the result holds exactly the active events whose seed location
lies within maxMeters of the center. -/
def panicsNearOK (panics : List PanicEvent) (center : GeoPoint) (maxMeters : ℚ)
    (res : List PanicEvent) : Prop :=
  (∀ e ∈ res, e ∈ panics ∧ e.is_active = true ∧ sphereDistLeM center e.location maxMeters) ∧
  (∀ e ∈ panics, e.is_active = true → sphereDistLeM center e.location maxMeters → e ∈ res)

/-- The CATEGORY_LABELS mapping of server.py lines 402-412. -/
def CATEGORY_LABELS : List (String × String) :=
  [("violence", "Violence/Assault"), ("robbery", "Armed Robbery"),
   ("kidnapping", "Kidnapping/Abduction"), ("burglary", "Break-in/Burglary"),
   ("breakin", "Break-in/Burglary"), ("medical", "Medical Emergency"),
   ("fire", "Fire/Accident"), ("harassment", "Harassment/Stalking"),
   ("other", "Emergency")]

/-- CATEGORY_LABELS.get(category, 'Emergency') of server.py line 415. -/
def categoryLabel (category : String) : String :=
  ((CATEGORY_LABELS.find? (fun kv => kv.1 == category)).map (fun kv => kv.2)).getD "Emergency"

/-- The panic_events document built by server.py lines 417-432 for an
activation by user uid at time now: active, seeded with the activation
point both as the GeoJSON location and as the sole trail entry. -/
def newPanicOf (uid : String) (pd : LocationPoint) (now : ℚ) (freshId : Nat) :
    PanicEvent :=
  { id := freshId
    user_id := uid
    activated_at := now
    is_active := true
    emergency_category := pd.emergency_category.getD "other"
    location := { longitude := pd.longitude, latitude := pd.latitude }
    locations := [{ latitude := pd.latitude, longitude := pd.longitude,
                    accuracy := pd.accuracy, timestamp := pd.timestamp }]
    deactivated_at := none }

/-- The dispatch effect of a panic activation (server.py lines 446-453):
nothing when no nearby team was selected, otherwise the summary of
send_push_notification for the selected user ids, with the category
label in title and body. -/
def activatePushOf (users : List User) (security_user_ids : List String)
    (category : String) (eventId : Nat) (transport200 : Bool) :
    Option PushSummary :=
  if security_user_ids.isEmpty then none
  else some (send_push_notification users security_user_ids
    ((categoryLabel category) ++ " ALERT")
    ((categoryLabel category) ++ " reported nearby")
    [("type", .s "panic"), ("event_id", .n eventId), ("category", .s category)]
    transport200)

/-- What the caller of /api/panic/activate observes: the JSON response of
server.py line 473 plus, as data, the dispatch effects (the selected
security user ids and the push summary when a dispatch was attempted). -/
structure ActivateResult where
  panic_id : Nat
  message : String
  security_user_ids : List String
  push : Option PushSummary
  deriving Repr, DecidableEq

/-- server.py activate_panic (lines 396-473).  nearTeams is the result of
the security_teams $near query of lines 436-443 (constrained by
teamsNearOK in theorems, truncated by to_list(100) here); transport200
abstracts the Expo HTTP outcome.  The event is inserted unconditionally
(insert_one, line 433): no check for an existing active event and no
conflict error exists.  The email block of lines 455-471 calls the
nonexistent method email_service.send_panic_alert_email, raising
AttributeError on its first iteration, which the surrounding try/except
swallows, so it neither delivers mail nor changes state and is not
modelled further. -/
def activate_panic (db : DB) (u : User) (pd : LocationPoint) (now : ℚ)
    (nearTeams : List SecurityTeam) (transport200 : Bool) :
    Except HErr (ActivateResult × DB) :=
  if u.role ≠ "civil" then .error { status := 403, detail := "Only civil users can activate panic" }
  else
    let category := pd.emergency_category.getD "other"
    let pe := newPanicOf u.id pd now db.nextId
    let db1 : DB := { db with panic_events := db.panic_events ++ [pe], nextId := db.nextId + 1 }
    let security_user_ids := (nearTeams.take 100).map (fun t => t.user_id)
    let push := activatePushOf db1.users security_user_ids category pe.id transport200
    .ok ({ panic_id := pe.id, message := "Panic activated",
           security_user_ids := security_user_ids, push := push }, db1)

/-- The trail entry pushed by server.py lines 483-488: the submitted
latitude, longitude, accuracy and timestamp, exactly as received. -/
def panicEntryOf (loc : LocationPoint) : PanicTrailEntry :=
  { latitude := loc.latitude, longitude := loc.longitude,
    accuracy := loc.accuracy, timestamp := loc.timestamp }

/-- The trail entry pushed by server.py lines 560-564: latitude,
longitude and timestamp as received, with no accuracy field. -/
def escortEntryOf (loc : LocationPoint) : EscortTrailEntry :=
  { latitude := loc.latitude, longitude := loc.longitude,
    timestamp := loc.timestamp }

/-- server.py log_panic_location (lines 475-490): find_one the first
active panic of the user (404 when none), then push the submitted entry
onto its trail.  The timestamp is taken from the request as is. -/
def log_panic_location (db : DB) (u : User) (loc : LocationPoint) :
    Except HErr (String × DB) :=
  match db.panic_events.find? (fun e => e.user_id == u.id && e.is_active) with
  | none => .error { status := 404, detail := "No active panic" }
  | some pe =>
    let updated := updateFirst (fun e => e.id == pe.id)
      (fun e => { e with locations := e.locations ++ [panicEntryOf loc] }) db.panic_events
    .ok ("Location logged", { db with panic_events := updated })

/-- server.py deactivate_panic (lines 492-498): a blind update_one that
flips the first active panic of the user, if any, and always answers
with the same message; no error path and no returned snapshot. -/
def deactivate_panic (db : DB) (u : User) (now : ℚ) : String × DB :=
  let updated := updateFirst (fun e => e.user_id == u.id && e.is_active)
    (fun e => { e with is_active := false, deactivated_at := some now })
    db.panic_events
  ("Panic deactivated", { db with panic_events := updated })

/-- The response of /api/escort/action: a start returns the session id, a
stop returns a message, and any other action string falls off the end of
the Python function, returning None. -/
inductive EscortResp where
  | started (session_id : Nat) (message : String)
  | stopped (message : String)
  | noResponse
  deriving Repr, DecidableEq

/-- The escort_sessions document built by server.py lines 508-517 for a
start by user uid at time now: active, currentLocation at the start
point, and an empty locations trail. -/
def newEscortOf (uid : String) (loc : LocationPoint) (now : ℚ) (freshId : Nat) :
    EscortSession :=
  { id := freshId, user_id := uid, started_at := now, is_active := true,
    currentLocation := { longitude := loc.longitude, latitude := loc.latitude },
    locations := [], ended_at := none, delete_at := none }

/-- The civil_tracks document built by server.py lines 521-530: the live
projection holding only the current point. -/
def newTrackOf (uid : String) (loc : LocationPoint) (now : ℚ) (sid : Nat) :
    CivilTrack :=
  { user_id := uid, session_id := sid,
    currentLocation := { longitude := loc.longitude, latitude := loc.latitude },
    track_timestamp := now, is_active := true }

/-- server.py escort_action (lines 500-546).  start inserts the session
(active, currentLocation at the start point, locations empty) and the
live civil_tracks projection; stop finds the first active session of the
user (404 when none), flips it with ended_at now and delete_at now plus
24 hours (86400 seconds), and deletes the live track. -/
def escort_action (db : DB) (u : User) (action : String) (loc : LocationPoint)
    (now : ℚ) : Except HErr (EscortResp × DB) :=
  if u.role ≠ "civil" then .error { status := 403, detail := "Only civil users can use escort" }
  else if ¬ u.is_premium then .error { status := 403, detail := "Premium feature" }
  else if action == "start" then
    let sess := newEscortOf u.id loc now db.nextId
    let track := newTrackOf u.id loc now sess.id
    .ok (.started sess.id "Escort started",
      { db with escort_sessions := db.escort_sessions ++ [sess],
                civil_tracks := db.civil_tracks ++ [track],
                nextId := db.nextId + 1 })
  else if action == "stop" then
    match db.escort_sessions.find? (fun s => s.user_id == u.id && s.is_active) with
    | none => .error { status := 404, detail := "No active session" }
    | some sess =>
      let sessions := updateFirst (fun s => s.id == sess.id)
        (fun s => { s with is_active := false, ended_at := some now,
                           delete_at := some (now + 86400) })
        db.escort_sessions
      let tracks := deleteFirst (fun t => t.user_id == u.id && t.session_id == sess.id)
        db.civil_tracks
      .ok (.stopped "Arrived safely. Data will be deleted in 24h",
        { db with escort_sessions := sessions, civil_tracks := tracks })
  else .ok (.noResponse, db)

/-- server.py log_escort_location (lines 548-579): premium gate, find_one
the first active session of the user (404 when none), push the submitted
entry (latitude, longitude, timestamp; no accuracy) onto its trail, and
update_one the first active live track of the user with the new current
location stamped now. -/
def log_escort_location (db : DB) (u : User) (loc : LocationPoint) (now : ℚ) :
    Except HErr (String × DB) :=
  if ¬ u.is_premium then .error { status := 403, detail := "Premium feature" }
  else
    match db.escort_sessions.find? (fun s => s.user_id == u.id && s.is_active) with
    | none => .error { status := 404, detail := "No active session" }
    | some sess =>
      let sessions := updateFirst (fun s => s.id == sess.id)
        (fun s => { s with locations := s.locations ++ [escortEntryOf loc] })
        db.escort_sessions
      let tracks := updateFirst (fun t => t.user_id == u.id && t.is_active)
        (fun t => { t with
            currentLocation := { longitude := loc.longitude, latitude := loc.latitude },
            track_timestamp := now })
        db.civil_tracks
      .ok ("Location logged",
        { db with escort_sessions := sessions, civil_tracks := tracks })

/-- One row of the /api/security/nearby-panics response (server.py lines
931-940). -/
structure PanicSummary where
  id : Nat
  user_email : String
  activated_at : ℚ
  latitude : ℚ
  longitude : ℚ
  location_count : Nat
  emergency_category : String
  deriving Repr, DecidableEq

/-- The row built for one panic event by server.py lines 914-940: the
reporting user's email (Unknown when the user record is gone), and the
latest trail entry's coordinates, falling back to the seed location. -/
def panicSummary (users : List User) (p : PanicEvent) : PanicSummary :=
  let email := (((users.find? (fun u => u.id == p.user_id)).bind
    (fun u => u.email)).getD "Unknown")
  let coords :=
    match p.locations.getLast? with
    | some l => (l.latitude, l.longitude)
    | none => (p.location.latitude, p.location.longitude)
  { id := p.id, user_email := email, activated_at := p.activated_at,
    latitude := coords.1, longitude := coords.2,
    location_count := p.locations.length,
    emergency_category := p.emergency_category }

/-- Insert one event into a list kept sorted by activated_at descending. -/
def insertByActivatedDesc (e : PanicEvent) : List PanicEvent → List PanicEvent
  | [] => [e]
  | x :: xs =>
    if x.activated_at < e.activated_at then e :: x :: xs
    else x :: insertByActivatedDesc e xs

/-- The sort('activated_at', -1) of server.py lines 896, 908 and 911 as an
insertion sort (any activated_at-descending order is conformant; Mongo
leaves tie order unspecified). -/
def sortActivatedDesc (l : List PanicEvent) : List PanicEvent :=
  l.foldr insertByActivatedDesc []

/-- server.py get_nearby_panics (lines 883-942).  Security only; a missing
team record answers the empty list; a team location that is unset or the
[0,0] default answers all active panics regardless of distance;
otherwise the geospatial query filters active panics to those within the
team's own radius_km of the team location (geoMatched, constrained by
panicsNearOK in theorems).  Both list branches sort by activated_at
descending and truncate with to_list(50).  The except fallback of line
911 concerns a storage engine failure and is outside this deterministic
model. -/
def get_nearby_panics (db : DB) (u : User) (geoMatched : List PanicEvent) :
    Except HErr (List PanicSummary) :=
  if u.role ≠ "security" then .error { status := 403, detail := "Security users only" }
  else
    match db.security_teams.find? (fun t => t.user_id == u.id) with
    | none => .ok []
    | some team =>
      let base :=
        if team.teamLocation == { longitude := 0, latitude := 0 } then
          (sortActivatedDesc (db.panic_events.filter (fun e => e.is_active))).take 50
        else
          (sortActivatedDesc geoMatched).take 50
      .ok (base.map (panicSummary db.users))

/-- Whether an endpoint call succeeded, that is, FastAPI raised no
HTTPException. -/
def resultOk : Except HErr α → Bool
  | .ok _ => true
  | .error _ => false

/-- The store after an endpoint call; an HTTPException leaves it as it
was. -/
def stateAfter (db : DB) : Except HErr (α × DB) → DB
  | .ok (_, db') => db'
  | .error _ => db

/-- The HTTPException an endpoint call raised, when it raised one. -/
def errOf : Except HErr α → Option HErr
  | .error e => some e
  | .ok _ => none

/-- The security user ids a panic activation selected for dispatch
(empty on error). -/
def selectedOf : Except HErr (ActivateResult × DB) → List String
  | .ok (r, _) => r.security_user_ids
  | .error _ => []

/-- The rows of a nearby-panics response (empty on error). -/
def rowsOf : Except HErr (List PanicSummary) → List PanicSummary
  | .ok l => l
  | .error _ => []

/-- Whether a list of timestamps is non-decreasing, the trail property
named by the specification. -/
def nonDecreasing : List ℚ → Bool
  | [] => true
  | [_] => true
  | x :: y :: rest => decide (x ≤ y) && nonDecreasing (y :: rest)

/-- The number of active panic events of a given user. -/
def activePanicCount (db : DB) (uid : String) : Nat :=
  (db.panic_events.filter (fun e => e.user_id == uid && e.is_active)).length

/-- The number of active escort sessions of a given user. -/
def activeEscortCount (db : DB) (uid : String) : Nat :=
  (db.escort_sessions.filter (fun s => s.user_id == uid && s.is_active)).length


/-! Concrete fixtures used by counterexamples and witnesses. -/

/-- A civil, non-premium user. -/
def alice : User :=
  { id := "alice", role := "civil", is_premium := false, status := "",
    is_visible := true, push_token := none, email := some "alice@example.com" }

/-- A civil premium user, eligible for escort endpoints. -/
def carol : User :=
  { id := "carol", role := "civil", is_premium := true, status := "",
    is_visible := true, push_token := none, email := some "carol@example.com" }

/-- A security user who has set visibility off and status offline, with a
registered push token. -/
def bob : User :=
  { id := "bob", role := "security", is_premium := false, status := "offline",
    is_visible := false, push_token := some "ExponentPushToken[bob]",
    email := some "bob@example.com" }

/-- A reference point, longitude 3 latitude 6. -/
def pt63 : GeoPoint := { longitude := 3, latitude := 6 }

/-- A location report at the given coordinates and timestamp, with no
accuracy and no category. -/
def locAt (lat lon ts : ℚ) : LocationPoint :=
  { latitude := lat, longitude := lon, accuracy := none, timestamp := ts,
    emergency_category := none }

/-- Bob's security team record, located at pt63 with a 10 km radius. -/
def bobTeam : SecurityTeam :=
  { user_id := "bob", teamLocation := pt63, radius_km := 10 }

/-- The base store: three users, bob's team, no incidents yet. -/
def db0 : DB :=
  { users := [alice, carol, bob], panic_events := [], escort_sessions := [],
    civil_tracks := [], security_teams := [bobTeam], nextId := 0 }

/-- First panic activation by alice on the base store (no nearby teams
passed, transport healthy). -/
def c1_step1 : Except HErr (ActivateResult × DB) :=
  activate_panic db0 alice (locAt 6 3 0) 0 [] true

/-- Second panic activation by alice, on the store the first one left. -/
def c1_step2 : Except HErr (ActivateResult × DB) :=
  activate_panic (stateAfter db0 c1_step1) alice (locAt 6 3 1) 1 [] true

/-- The store after both activations. -/
def c1_db2 : DB := stateAfter (stateAfter db0 c1_step1) c1_step2

/-- First escort start by carol on the base store. -/
def c1_esc1 : Except HErr (EscortResp × DB) :=
  escort_action db0 carol "start" (locAt 6 3 0) 0

/-- Second escort start by carol, on the store the first one left. -/
def c1_esc2 : Except HErr (EscortResp × DB) :=
  escort_action (stateAfter db0 c1_esc1) carol "start" (locAt 6 3 1) 1

/-- The store after both escort starts. -/
def c1_escDb2 : DB := stateAfter (stateAfter db0 c1_esc1) c1_esc2

/-- Five dispatch recipients: three with registered Expo tokens, two
without any push token. -/
def c8_users : List User :=
  [{ id := "u1", role := "security", is_premium := false, status := "available",
     is_visible := true, push_token := some "ExponentPushToken[1]", email := none },
   { id := "u2", role := "security", is_premium := false, status := "available",
     is_visible := true, push_token := some "ExponentPushToken[2]", email := none },
   { id := "u3", role := "security", is_premium := false, status := "available",
     is_visible := true, push_token := some "ExponentPushToken[3]", email := none },
   { id := "u4", role := "security", is_premium := false, status := "available",
     is_visible := true, push_token := none, email := none },
   { id := "u5", role := "security", is_premium := false, status := "available",
     is_visible := true, push_token := none, email := none }]

/-- The five recipient ids of the dispatch-accounting scenario. -/
def c8_ids : List String := ["u1", "u2", "u3", "u4", "u5"]

/-- An active panic event of alice whose single trail entry has
timestamp 5. -/
def c3_event : PanicEvent :=
  { id := 7, user_id := "alice", activated_at := 0, is_active := true,
    emergency_category := "other", location := pt63,
    locations := [{ latitude := 6, longitude := 3, accuracy := none,
                    timestamp := 5 }],
    deactivated_at := none }

/-- A store holding one active panic for alice whose single trail entry
has timestamp 5. -/
def c3_db : DB := { db0 with panic_events := [c3_event], nextId := 8 }

/-- Appending to that trail with a client timestamp 3, earlier than the
stored entry. -/
def c3_run : Except HErr (String × DB) := log_panic_location c3_db alice (locAt 6 3 3)

/-- The store after the out-of-order append. -/
def c3_after : DB := stateAfter c3_db c3_run

/-- Carol starts an escort on the base store. -/
def c4_s1 : Except HErr (EscortResp × DB) := escort_action db0 carol "start" (locAt 6 3 0) 0

/-- Carol stops it. -/
def c4_s2 : Except HErr (EscortResp × DB) :=
  escort_action (stateAfter db0 c4_s1) carol "stop" (locAt 6 3 1) 1

/-- Carol stops it a second time, on the already-ended session. -/
def c4_s3 : Except HErr (EscortResp × DB) :=
  escort_action (stateAfter (stateAfter db0 c4_s1) c4_s2) carol "stop" (locAt 6 3 2) 2

/-- A store where alice's only panic is already Deactivated and carol's
only escort session is already Ended. -/
def c5_db : DB :=
  { db0 with
      panic_events :=
        [{ id := 7, user_id := "alice", activated_at := 0, is_active := false,
           emergency_category := "other", location := pt63,
           locations := [{ latitude := 6, longitude := 3, accuracy := none,
                           timestamp := 0 }],
           deactivated_at := some 1 }],
      escort_sessions :=
        [{ id := 8, user_id := "carol", started_at := 0, is_active := false,
           currentLocation := pt63, locations := [], ended_at := some 1,
           delete_at := some 86401 }],
      nextId := 9 }

/-- Alice's panic activation with bob's team passed as the (valid) query
result: bob is invisible and offline yet gets selected. -/
def c2_run : Except HErr (ActivateResult × DB) :=
  activate_panic db0 alice (locAt 6 3 0) 0 [bobTeam] true

/-- An active escort session of carol. -/
def c4b_sess : EscortSession :=
  { id := 3, user_id := "carol", started_at := 0, is_active := true,
    currentLocation := pt63, locations := [{ latitude := 6, longitude := 3,
                                             timestamp := 0 }],
    ended_at := none, delete_at := none }

/-- A store holding carol's single active escort session and its live
track. -/
def c4b_db : DB :=
  { db0 with escort_sessions := [c4b_sess],
             civil_tracks := [{ user_id := "carol", session_id := 3,
                                currentLocation := pt63, track_timestamp := 0,
                                is_active := true }],
             nextId := 4 }

/-- The i-th of 51 active panic events of alice, all located at pt63 with
distinct ids and activation times. -/
def c7panic (i : Nat) : PanicEvent :=
  { id := 100 + i, user_id := "alice", activated_at := (i : ℚ), is_active := true,
    emergency_category := "other", location := pt63, locations := [],
    deactivated_at := none }

/-- The 51 active events of the query-cap scenario. -/
def c7panics : List PanicEvent := (List.range 51).map c7panic

/-- A store holding those 51 active events plus bob's team at pt63 with a
10 km radius. -/
def c7db : DB := { db0 with panic_events := c7panics, nextId := 200 }

/-- Bob's nearby-panics query, passing the full 51-element geo result. -/
def c7run : Except HErr (List PanicSummary) := get_nearby_panics c7db bob c7panics

/-- A single active panic event of alice at pt63, for the nearby-panics
witness. -/
def c7w_event : PanicEvent :=
  { id := 300, user_id := "alice", activated_at := 0, is_active := true,
    emergency_category := "other", location := pt63, locations := [],
    deactivated_at := none }

/-- A store holding just that event and bob's team. -/
def c7w_db : DB := { db0 with panic_events := [c7w_event], nextId := 301 }

/-- Carol starts an escort on the base store (C9 scenario). -/
def c9_run : Except HErr (EscortResp × DB) := escort_action db0 carol "start" (locAt 6 3 0) 0

/-- The store right after that escort start. -/
def c9_db : DB := stateAfter db0 c9_run

/-! Helper lemmas about the store primitives and geometry. -/

theorem updateFirst_all_false {p : α → Bool} (f : α → α) {l : List α}
    (h : ∀ x ∈ l, p x = false) : updateFirst p f l = l := by
  induction l with
  | nil => rfl
  | cons x xs ih =>
    simp only [updateFirst, h x (List.mem_cons_self x xs)]
    simp only [Bool.false_eq_true, if_false, List.cons.injEq, true_and]
    exact ih (fun y hy => h y (List.mem_cons_of_mem x hy))

theorem updateFirst_append {p : α → Bool} (f : α → α) {l₁ l₂ : List α} {x : α}
    (h₁ : ∀ y ∈ l₁, p y = false) (hx : p x = true) :
    updateFirst p f (l₁ ++ x :: l₂) = l₁ ++ f x :: l₂ := by
  induction l₁ with
  | nil => simp [updateFirst, hx]
  | cons y ys ih =>
    simp only [List.cons_append, updateFirst, h₁ y (List.mem_cons_self y ys)]
    simp only [Bool.false_eq_true, if_false, List.cons.injEq, true_and]
    exact ih (fun z hz => h₁ z (List.mem_cons_of_mem y hz))

theorem updateFirst_kills_all {p : α → Bool} {f : α → α} {l : List α}
    (hcount : (l.filter p).length ≤ 1) (hf : ∀ x, p (f x) = false) :
    ∀ y ∈ updateFirst p f l, p y = false := by
  induction l with
  | nil => intro y hy; cases hy
  | cons x xs ih =>
    intro y hy
    by_cases hx : p x = true
    · simp only [updateFirst, hx, if_true] at hy
      rcases List.mem_cons.mp hy with rfl | hmem
      · exact hf x
      · have hfc : List.filter p (x :: xs) = x :: xs.filter p := by
          simp [List.filter_cons, hx]
        have htail : (xs.filter p).length = 0 := by
          rw [hfc] at hcount
          simp only [List.length_cons] at hcount
          omega
        have hempty : xs.filter p = [] := List.length_eq_zero.mp htail
        exact Bool.eq_false_iff.mpr (List.filter_eq_nil_iff.mp hempty y hmem)
    · have hx' : p x = false := Bool.eq_false_iff.mpr hx
      simp only [updateFirst, hx', Bool.false_eq_true, if_false] at hy
      rcases List.mem_cons.mp hy with rfl | hmem
      · exact hx'
      · have hfc : List.filter p (x :: xs) = xs.filter p := by
          simp [List.filter_cons, hx']
        exact ih (by rw [hfc] at hcount; exact hcount) y hmem

theorem insertByActivatedDesc_perm (e : PanicEvent) (l : List PanicEvent) :
    List.Perm (insertByActivatedDesc e l) (e :: l) := by
  induction l with
  | nil => exact List.Perm.refl _
  | cons x xs ih =>
    by_cases h : x.activated_at < e.activated_at
    · simp [insertByActivatedDesc, h]
    · simp only [insertByActivatedDesc, h, if_false]
      exact (ih.cons x).trans (List.Perm.swap e x xs)

theorem sortActivatedDesc_perm (l : List PanicEvent) :
    List.Perm (sortActivatedDesc l) l := by
  induction l with
  | nil => exact List.Perm.refl _
  | cons x xs ih =>
    simp only [sortActivatedDesc, List.foldr_cons]
    exact (insertByActivatedDesc_perm x _).trans (ih.cons x)

theorem sphereDistLeM_self (p : GeoPoint) (m : ℚ) (hm : 0 ≤ m) :
    sphereDistLeM p p m := by
  unfold sphereDistLeM
  have hz : ((p.latitude - p.latitude : ℚ) : ℝ) = 0 := by push_cast; ring
  have hz' : ((p.longitude - p.longitude : ℚ) : ℝ) = 0 := by push_cast; ring
  rw [hz, hz']
  simp only [zero_mul, zero_div, Real.sin_zero]
  norm_num [Real.sqrt_zero, Real.arcsin_zero]
  exact_mod_cast hm

theorem find?_decomp {p : α → Bool} {l : List α} {x : α}
    (h : l.find? p = some x) :
    p x = true ∧ ∃ l₁ l₂, l = l₁ ++ x :: l₂ ∧ ∀ y ∈ l₁, p y = false := by
  obtain ⟨hx, l₁, l₂, rfl, hfalse⟩ := List.find?_eq_some.mp h
  exact ⟨hx, l₁, l₂, rfl, fun y hy => by simpa using hfalse y hy⟩

theorem all_false_of_filter_le_one {p : α → Bool} {l₁ l₂ : List α} {x : α}
    (hx : p x = true) (h : ((l₁ ++ x :: l₂).filter p).length ≤ 1) :
    (∀ y ∈ l₁, p y = false) ∧ ∀ y ∈ l₂, p y = false := by
  rw [List.filter_append, List.filter_cons, if_pos hx, List.length_append,
    List.length_cons] at h
  have h₁ : (l₁.filter p).length = 0 := by omega
  have h₂ : (l₂.filter p).length = 0 := by omega
  refine ⟨fun y hy => ?_, fun y hy => ?_⟩
  · exact Bool.eq_false_iff.mpr
      (List.filter_eq_nil_iff.mp (List.length_eq_zero.mp h₁) y hy)
  · exact Bool.eq_false_iff.mpr
      (List.filter_eq_nil_iff.mp (List.length_eq_zero.mp h₂) y hy)

theorem key_ne_of_nodup_append {k : α → β} {l₁ l₂ : List α} {x : α}
    (h : ((l₁ ++ x :: l₂).map k).Nodup) : ∀ y ∈ l₁, k y ≠ k x := by
  intro y hy
  rw [List.map_append, List.map_cons] at h
  have hdisj := (List.nodup_append.mp h).2.2
  intro hk
  exact hdisj (List.mem_map_of_mem k hy) (hk ▸ List.mem_cons_self _ _)

theorem activate_panic_eq (db : DB) (u : User) (pd : LocationPoint) (now : ℚ)
    (matched : List SecurityTeam) (tr : Bool) (hrole : u.role = "civil") :
    activate_panic db u pd now matched tr =
      .ok ({ panic_id := db.nextId, message := "Panic activated",
             security_user_ids := (matched.take 100).map (fun t => t.user_id),
             push := activatePushOf db.users
               ((matched.take 100).map (fun t => t.user_id))
               (pd.emergency_category.getD "other") db.nextId tr },
           { db with
               panic_events := db.panic_events ++ [newPanicOf u.id pd now db.nextId],
               nextId := db.nextId + 1 }) := by
  unfold activate_panic
  rw [if_neg (by simp [hrole])]
  rfl

theorem escort_start_eq (db : DB) (u : User) (loc : LocationPoint) (now : ℚ)
    (hc : u.role = "civil") (hp : u.is_premium = true) :
    escort_action db u "start" loc now =
      .ok (.started db.nextId "Escort started",
        { db with
            escort_sessions := db.escort_sessions ++ [newEscortOf u.id loc now db.nextId],
            civil_tracks := db.civil_tracks ++ [newTrackOf u.id loc now db.nextId],
            nextId := db.nextId + 1 }) := by
  unfold escort_action
  rw [if_neg (by simp [hc]), if_neg (by simp [hp]), if_pos (by decide)]
  rfl

theorem escort_stop_eq (db : DB) (u : User) (loc : LocationPoint) (now : ℚ)
    (sess : EscortSession)
    (hc : u.role = "civil") (hp : u.is_premium = true)
    (hfind : db.escort_sessions.find? (fun s => s.user_id == u.id && s.is_active) =
      some sess) :
    escort_action db u "stop" loc now =
      .ok (.stopped "Arrived safely. Data will be deleted in 24h",
        { db with
            escort_sessions :=
              updateFirst (fun s => s.id == sess.id)
                (fun s => { s with is_active := false, ended_at := some now,
                                   delete_at := some (now + 86400) })
                db.escort_sessions,
            civil_tracks :=
              deleteFirst (fun t => t.user_id == u.id && t.session_id == sess.id)
                db.civil_tracks }) := by
  unfold escort_action
  rw [if_neg (by simp [hc]), if_neg (by simp [hp]), if_neg (by decide),
    if_pos (by decide), hfind]

theorem escort_stop_none (db : DB) (u : User) (loc : LocationPoint) (now : ℚ)
    (hc : u.role = "civil") (hp : u.is_premium = true)
    (hfind : db.escort_sessions.find? (fun s => s.user_id == u.id && s.is_active) =
      none) :
    escort_action db u "stop" loc now =
      .error { status := 404, detail := "No active session" } := by
  unfold escort_action
  rw [if_neg (by simp [hc]), if_neg (by simp [hp]), if_neg (by decide),
    if_pos (by decide), hfind]

theorem log_panic_location_none (db : DB) (u : User) (loc : LocationPoint)
    (hfind : db.panic_events.find? (fun e => e.user_id == u.id && e.is_active) =
      none) :
    log_panic_location db u loc =
      .error { status := 404, detail := "No active panic" } := by
  unfold log_panic_location
  rw [hfind]

theorem log_escort_location_none (db : DB) (u : User) (loc : LocationPoint)
    (now : ℚ) (hp : u.is_premium = true)
    (hfind : db.escort_sessions.find? (fun s => s.user_id == u.id && s.is_active) =
      none) :
    log_escort_location db u loc now =
      .error { status := 404, detail := "No active session" } := by
  unfold log_escort_location
  rw [if_neg (by simp [hp]), hfind]

theorem deactivate_panic_noop (db : DB) (u : User) (now : ℚ)
    (hfind : db.panic_events.find? (fun e => e.user_id == u.id && e.is_active) =
      none) :
    deactivate_panic db u now = ("Panic deactivated", db) := by
  unfold deactivate_panic
  rw [updateFirst_all_false _
    (fun x hx => Bool.eq_false_iff.mpr (List.find?_eq_none.mp hfind x hx))]

theorem stateAfter_ok (db db' : DB) (a : α) :
    stateAfter db (Except.ok (a, db')) = db' := rfl

theorem log_panic_location_appends (db : DB) (u : User) (loc : LocationPoint)
    (pe : PanicEvent)
    (hnodup : (db.panic_events.map (fun e => e.id)).Nodup)
    (hfind : db.panic_events.find? (fun e => e.user_id == u.id && e.is_active) =
      some pe) :
    ∃ l₁ l₂, db.panic_events = l₁ ++ pe :: l₂ ∧
      log_panic_location db u loc =
        .ok ("Location logged",
          { db with panic_events :=
              l₁ ++ ({ pe with locations := pe.locations ++ [panicEntryOf loc] }) :: l₂ }) := by
  obtain ⟨hpe, l₁, l₂, hdecomp, _⟩ := find?_decomp hfind
  refine ⟨l₁, l₂, hdecomp, ?_⟩
  have hpid : ∀ y ∈ l₁, (y.id == pe.id) = false := by
    intro y hy
    have hne := key_ne_of_nodup_append (k := fun e : PanicEvent => e.id)
      (by rw [← hdecomp]; exact hnodup) y hy
    simpa using hne
  have hupd : updateFirst (fun e => e.id == pe.id)
      (fun e => { e with locations := e.locations ++ [panicEntryOf loc] })
      db.panic_events =
      l₁ ++ ({ pe with locations := pe.locations ++ [panicEntryOf loc] }) :: l₂ := by
    rw [hdecomp]
    exact updateFirst_append _ hpid (by simp)
  simp only [log_panic_location, hfind]
  rw [hupd]

theorem log_escort_location_appends (db : DB) (u : User) (loc : LocationPoint)
    (now : ℚ) (sess : EscortSession)
    (hp : u.is_premium = true)
    (hnodup : (db.escort_sessions.map (fun s => s.id)).Nodup)
    (hfind : db.escort_sessions.find? (fun s => s.user_id == u.id && s.is_active) =
      some sess) :
    ∃ l₁ l₂, db.escort_sessions = l₁ ++ sess :: l₂ ∧
      log_escort_location db u loc now =
        .ok ("Location logged",
          { db with
              escort_sessions :=
                l₁ ++ ({ sess with locations := sess.locations ++ [escortEntryOf loc] }) :: l₂,
              civil_tracks :=
                updateFirst (fun t => t.user_id == u.id && t.is_active)
                  (fun t => { t with
                      currentLocation := { longitude := loc.longitude, latitude := loc.latitude },
                      track_timestamp := now })
                  db.civil_tracks }) := by
  obtain ⟨hsess, l₁, l₂, hdecomp, _⟩ := find?_decomp hfind
  refine ⟨l₁, l₂, hdecomp, ?_⟩
  have hpid : ∀ y ∈ l₁, (y.id == sess.id) = false := by
    intro y hy
    have hne := key_ne_of_nodup_append (k := fun s : EscortSession => s.id)
      (by rw [← hdecomp]; exact hnodup) y hy
    simpa using hne
  have hupd : updateFirst (fun s => s.id == sess.id)
      (fun s => { s with locations := s.locations ++ [escortEntryOf loc] })
      db.escort_sessions =
      l₁ ++ ({ sess with locations := sess.locations ++ [escortEntryOf loc] }) :: l₂ := by
    rw [hdecomp]
    exact updateFirst_append _ hpid (by simp)
  unfold log_escort_location
  rw [if_neg (by simp [hp])]
  simp only [hfind]
  rw [hupd]

theorem bobTeam_near_pt63 : teamsNearOK db0.security_teams pt63 50000 [bobTeam] := by
  constructor
  · intro t ht
    rw [List.mem_singleton] at ht
    subst ht
    exact ⟨List.mem_singleton_self _, sphereDistLeM_self pt63 50000 (by norm_num)⟩
  · intro t ht _
    simpa [db0] using ht

/-! Claim theorems. -/

/-- C1: the specification requires ActivatePanic and StartEscort to check
atomically for an existing Active aggregate of the same actor and fail
with a ConflictError.  The code performs no such check (insert_one with
no guard, server.py lines 417-433 and 507-530, and no conflict error
exists anywhere): two consecutive activations by the same actor both
succeed and leave two Active panic events, and likewise two escort
starts leave two Active sessions. -/
theorem C1_double_activation_two_actives :
    resultOk c1_step1 = true ∧ resultOk c1_step2 = true ∧
    activePanicCount c1_db2 "alice" = 2 ∧
    resultOk c1_esc1 = true ∧ resultOk c1_esc2 = true ∧
    activeEscortCount c1_escDb2 "carol" = 2 := by decide

/-- C8: the specification requires Dispatch to report sent, failed and
skipped counts, with recipients lacking a delivery address counted as
skipped; for 5 recipients of which 2 lack tokens and 1 transport call
errors it requires sent=2, failed=1, skipped=2.  In the code the two
token-less recipients are silently dropped by the token query (never
counted anywhere), the Expo service accounts a single batch POST
all-or-nothing with no skipped key, and the caller at server.py line 199
passes the keyword argument priority that the service method does not
accept, so every dispatch with at least one token raises TypeError and
the summary is status error with sent_to 0 (and even without that, lines
207-208 read the keys success and failed, which the service dict never
contains). -/
theorem C8_dispatch_always_errors :
    tokensFor c8_users c8_ids =
      ["ExponentPushToken[1]", "ExponentPushToken[2]", "ExponentPushToken[3]"] ∧
    send_push_notification c8_users c8_ids "t" "b" [] true =
      { status := "error", sent_to := 0, failed := none,
        error := some "TypeError: send_push_notification() got an unexpected keyword argument priority" } ∧
    send_push_notification c8_users c8_ids "t" "b" [] false =
      { status := "error", sent_to := 0, failed := none,
        error := some "TypeError: send_push_notification() got an unexpected keyword argument priority" } ∧
    expoServiceSend (tokensFor c8_users c8_ids) true = [("status", .s "sent"), ("sent_to", .n 3)] ∧
    dictGet (expoServiceSend (tokensFor c8_users c8_ids) true) "success" = none ∧
    dictGet (expoServiceSend (tokensFor c8_users c8_ids) true) "failed" = none := by decide

/-- C3 counterexample: the claim asserts trail timestamps are
non-decreasing, but log_panic_location stores the client-supplied
timestamp unchecked: appending with timestamp 3 after an entry with
timestamp 5 succeeds and leaves the trail timestamps [5, 3]. -/
theorem C3_cex_decreasing_timestamps :
    resultOk c3_run = true ∧
    c3_after.panic_events.map (fun e => e.locations.map (fun l => l.timestamp)) =
      [[5, 3]] ∧
    nonDecreasing [5, 3] = false := by decide

/-- C4 counterexample: the claim asserts Stop is idempotent, but a second
stop of the same escort session is rejected with HTTP 404 "No active
session" (server.py lines 535-537) instead of succeeding without error. -/
theorem C4_cex_second_stop_errors :
    resultOk c4_s1 = true ∧ resultOk c4_s2 = true ∧
    errOf c4_s3 = some { status := 404, detail := "No active session" } := by decide

/-- C5 counterexample: the claim asserts AppendLocation on a non-Active
aggregate fails with InvalidStateError; the code does always fail, but
with HTTP 404 (the NotFoundError of the error taxonomy: "No active
panic" / "No active session", server.py lines 478-479 and 554-555), not
with an invalid-state error. -/
theorem C5_cex_append_terminal_is_404 :
    errOf (log_panic_location c5_db alice (locAt 6 3 2)) =
      some { status := 404, detail := "No active panic" } ∧
    errOf (log_escort_location c5_db carol (locAt 6 3 2) 2) =
      some { status := 404, detail := "No active session" } := by decide

/-- C9 counterexample: the claim asserts Start seeds the escort trail
with the activation point so the trail is never empty after creation;
the code creates the session with locations = [] (server.py line 516),
so immediately after a successful start the trail is empty. -/
theorem C9_cex_escort_trail_empty :
    resultOk c9_run = true ∧
    c9_db.escort_sessions.map (fun s => s.locations) = [[]] := by decide

/-- C10: deactivating a panic when the actor has no active panic at all
succeeds with the same success response as a normal deactivation, raises
no error, and modifies no stored state: the blind update_one of
server.py lines 494-497 matches nothing and the endpoint
unconditionally answers its fixed message. -/
theorem C10_deactivate_without_active (db : DB) (u : User) (now : ℚ)
    (hfind : db.panic_events.find? (fun e => e.user_id == u.id && e.is_active) =
      none) :
    deactivate_panic db u now = ("Panic deactivated", db) :=
  deactivate_panic_noop db u now hfind

/-- Witness for C10 at the base store, where alice has no panic events at
all. -/
theorem C10_witness :
    deactivate_panic db0 alice 5 = ("Panic deactivated", db0) :=
  C10_deactivate_without_active db0 alice 5 (by decide)

/-- C6: the panic event is inserted before any dispatch is considered
and the response always carries the created id: for every matcher result
and every transport outcome the endpoint succeeds, the stored state is
the same explicit insertion (so a dispatch failure, including the
zero-responder case matched = [], never rolls it back), and any returned
response carries the new event id. -/
theorem C6_activation_durable_despite_dispatch (db : DB) (u : User)
    (pd : LocationPoint) (now : ℚ) (hrole : u.role = "civil") :
    ∀ (matched : List SecurityTeam) (tr : Bool),
      resultOk (activate_panic db u pd now matched tr) = true ∧
      stateAfter db (activate_panic db u pd now matched tr) =
        { db with panic_events := db.panic_events ++ [newPanicOf u.id pd now db.nextId],
                  nextId := db.nextId + 1 } ∧
      (∀ r db', activate_panic db u pd now matched tr = .ok (r, db') →
        r.panic_id = db.nextId) := by
  intro matched tr
  rw [activate_panic_eq db u pd now matched tr hrole]
  refine ⟨rfl, rfl, ?_⟩
  intro r db' h
  cases h
  rfl

/-- Witness for C6: alice activates with zero matched responders and a
failing transport; activation still succeeds and stores the event. -/
theorem C6_witness :
    resultOk (activate_panic db0 alice (locAt 6 3 0) 0 [] false) = true ∧
    stateAfter db0 (activate_panic db0 alice (locAt 6 3 0) 0 [] false) =
      { db0 with
          panic_events := db0.panic_events ++ [newPanicOf alice.id (locAt 6 3 0) 0 db0.nextId],
          nextId := db0.nextId + 1 } ∧
    (∀ r db', activate_panic db0 alice (locAt 6 3 0) 0 [] false = .ok (r, db') →
      r.panic_id = db0.nextId) :=
  C6_activation_durable_despite_dispatch db0 alice (locAt 6 3 0) 0 rfl [] false

/-- C2 counterexample: bob has visible = false and status offline, his
team lies within 50 km of the incident point (it sits exactly at it, a
valid result of the distance query), and activation nevertheless selects
him for notification: the security_teams query of server.py lines
436-443 filters by distance only. -/
theorem C2_cex_invisible_offline_selected :
    bob.is_visible = false ∧ bob.status = "offline" ∧
    teamsNearOK db0.security_teams pt63 50000 [bobTeam] ∧
    selectedOf c2_run = ["bob"] :=
  ⟨rfl, rfl, bobTeam_near_pt63, by decide⟩

/-- C2 corrected: responder selection for panic notification is purely
geographic.  Every team in the first 100 entries of the 50 km distance
query result has its user id selected for dispatch, with no visibility
or status condition whatsoever, so invisible or offline responders
within range are notified too. -/
theorem C2_amended_selection_ignores_visibility (db : DB) (u : User)
    (pd : LocationPoint) (now : ℚ) (matched : List SecurityTeam) (tr : Bool)
    (t : SecurityTeam) (hrole : u.role = "civil")
    (_hq : teamsNearOK db.security_teams
      { longitude := pd.longitude, latitude := pd.latitude } 50000 matched)
    (ht : t ∈ matched.take 100) :
    resultOk (activate_panic db u pd now matched tr) = true ∧
    t.user_id ∈ selectedOf (activate_panic db u pd now matched tr) := by
  rw [activate_panic_eq db u pd now matched tr hrole]
  exact ⟨rfl, List.mem_map_of_mem _ ht⟩

/-- Witness for the corrected C2 at the concrete scenario of the
counterexample. -/
theorem C2_amended_witness :
    resultOk (activate_panic db0 alice (locAt 6 3 0) 0 [bobTeam] true) = true ∧
    bobTeam.user_id ∈ selectedOf (activate_panic db0 alice (locAt 6 3 0) 0 [bobTeam] true) :=
  C2_amended_selection_ignores_visibility db0 alice (locAt 6 3 0) 0 [bobTeam] true
    bobTeam rfl bobTeam_near_pt63 (by decide)

/-- C5 corrected: AppendLocation on an aggregate that is not Active
always fails and never silently succeeds, but the error raised is HTTP
404 NotFound ("No active panic" / "No active session", server.py lines
478-479 and 554-555), not an InvalidStateError, which the code does not
have. -/
theorem C5_amended_append_non_active_404 :
    (∀ (db : DB) (u : User) (loc : LocationPoint),
       db.panic_events.find? (fun e => e.user_id == u.id && e.is_active) = none →
       log_panic_location db u loc =
         .error { status := 404, detail := "No active panic" }) ∧
    (∀ (db : DB) (u : User) (loc : LocationPoint) (now : ℚ),
       u.is_premium = true →
       db.escort_sessions.find? (fun s => s.user_id == u.id && s.is_active) = none →
       log_escort_location db u loc now =
         .error { status := 404, detail := "No active session" }) :=
  ⟨fun db u loc h => log_panic_location_none db u loc h,
   fun db u loc now hp h => log_escort_location_none db u loc now hp h⟩

/-- Witness for the corrected C5 on the store whose only aggregates are
already terminal. -/
theorem C5_amended_witness :
    log_panic_location c5_db alice (locAt 6 3 9) =
      .error { status := 404, detail := "No active panic" } ∧
    log_escort_location c5_db carol (locAt 6 3 9) 9 =
      .error { status := 404, detail := "No active session" } :=
  ⟨C5_amended_append_non_active_404.1 c5_db alice (locAt 6 3 9) (by decide),
   C5_amended_append_non_active_404.2 c5_db carol (locAt 6 3 9) 9 rfl (by decide)⟩

/-- C9 corrected: ActivatePanic does seed the panic trail with the
activation point, so a panic trail is non-empty from creation onward;
but StartEscort creates its session with an empty trail — the start
point goes only into currentLocation and the live civil_tracks
projection — so an escort trail is empty until the first append. -/
theorem C9_amended_trail_seeding :
    (∀ (db : DB) (u : User) (pd : LocationPoint) (now : ℚ)
       (matched : List SecurityTeam) (tr : Bool), u.role = "civil" →
       stateAfter db (activate_panic db u pd now matched tr) =
         { db with
             panic_events := db.panic_events ++ [newPanicOf u.id pd now db.nextId],
             nextId := db.nextId + 1 } ∧
       (newPanicOf u.id pd now db.nextId).locations = [panicEntryOf pd]) ∧
    (∀ (db : DB) (u : User) (loc : LocationPoint) (now : ℚ),
       u.role = "civil" → u.is_premium = true →
       stateAfter db (escort_action db u "start" loc now) =
         { db with
             escort_sessions := db.escort_sessions ++ [newEscortOf u.id loc now db.nextId],
             civil_tracks := db.civil_tracks ++ [newTrackOf u.id loc now db.nextId],
             nextId := db.nextId + 1 } ∧
       (newEscortOf u.id loc now db.nextId).locations = [] ∧
       (newTrackOf u.id loc now db.nextId).currentLocation =
         { longitude := loc.longitude, latitude := loc.latitude }) := by
  constructor
  · intro db u pd now matched tr hrole
    rw [activate_panic_eq db u pd now matched tr hrole]
    exact ⟨rfl, rfl⟩
  · intro db u loc now hc hp
    rw [escort_start_eq db u loc now hc hp]
    exact ⟨rfl, rfl, rfl⟩

/-- Witness for the corrected C9: alice's activation seeds her panic
trail; carol's escort start leaves the session trail empty. -/
theorem C9_amended_witness :
    (stateAfter db0 (activate_panic db0 alice (locAt 6 3 0) 0 [] true) =
       { db0 with
           panic_events := db0.panic_events ++ [newPanicOf alice.id (locAt 6 3 0) 0 db0.nextId],
           nextId := db0.nextId + 1 } ∧
     (newPanicOf alice.id (locAt 6 3 0) 0 db0.nextId).locations =
       [panicEntryOf (locAt 6 3 0)]) ∧
    (stateAfter db0 (escort_action db0 carol "start" (locAt 6 3 0) 0) =
       { db0 with
           escort_sessions := db0.escort_sessions ++ [newEscortOf carol.id (locAt 6 3 0) 0 db0.nextId],
           civil_tracks := db0.civil_tracks ++ [newTrackOf carol.id (locAt 6 3 0) 0 db0.nextId],
           nextId := db0.nextId + 1 } ∧
     (newEscortOf carol.id (locAt 6 3 0) 0 db0.nextId).locations = [] ∧
     (newTrackOf carol.id (locAt 6 3 0) 0 db0.nextId).currentLocation =
       { longitude := (locAt 6 3 0).longitude, latitude := (locAt 6 3 0).latitude }) :=
  ⟨C9_amended_trail_seeding.1 db0 alice (locAt 6 3 0) 0 [] true rfl,
   C9_amended_trail_seeding.2 db0 carol (locAt 6 3 0) 0 rfl rfl⟩

/-- C4 corrected: DeactivatePanic is idempotent — when the actor has at
most one active panic, a second call answers the same fixed message and
changes nothing — but it returns only that message, never a snapshot of
the terminal aggregate; and StopEscort is not idempotent: once the
session is ended, a second stop is rejected with HTTP 404 "No active
session". -/
theorem C4_amended_deactivate_idempotent_stop_not :
    (∀ (db : DB) (u : User) (t1 t2 : ℚ), activePanicCount db u.id ≤ 1 →
       deactivate_panic (deactivate_panic db u t1).2 u t2 =
         ("Panic deactivated", (deactivate_panic db u t1).2)) ∧
    (∀ (db : DB) (u : User) (loc1 loc2 : LocationPoint) (t1 t2 : ℚ)
       (sess : EscortSession),
       u.role = "civil" → u.is_premium = true →
       (db.escort_sessions.map (fun s => s.id)).Nodup →
       activeEscortCount db u.id ≤ 1 →
       db.escort_sessions.find? (fun s => s.user_id == u.id && s.is_active) =
         some sess →
       escort_action (stateAfter db (escort_action db u "stop" loc1 t1)) u
         "stop" loc2 t2 =
         .error { status := 404, detail := "No active session" }) := by
  constructor
  · intro db u t1 t2 h
    apply deactivate_panic_noop
    apply List.find?_eq_none.mpr
    intro x hx
    have h' : (db.panic_events.filter
        (fun e => e.user_id == u.id && e.is_active)).length ≤ 1 := h
    have hkill := updateFirst_kills_all
      (f := fun e : PanicEvent => { e with is_active := false, deactivated_at := some t1 })
      h' (fun y => by simp) x hx
    simp [hkill]
  · intro db u loc1 loc2 t1 t2 sess hc hp hnodup hcount hfind
    obtain ⟨hsess, l₁, l₂, hdecomp, _⟩ := find?_decomp hfind
    have hpid : ∀ y ∈ l₁, (y.id == sess.id) = false := by
      intro y hy
      have hne := key_ne_of_nodup_append (k := fun s : EscortSession => s.id)
        (by rw [← hdecomp]; exact hnodup) y hy
      simpa using hne
    have hupd : updateFirst (fun s => s.id == sess.id)
        (fun s => { s with is_active := false, ended_at := some t1,
                           delete_at := some (t1 + 86400) })
        db.escort_sessions =
        l₁ ++ ({ sess with is_active := false, ended_at := some t1,
                           delete_at := some (t1 + 86400) } : EscortSession) :: l₂ := by
      rw [hdecomp]
      exact updateFirst_append _ hpid (by simp)
    have hcount' : ((l₁ ++ sess :: l₂).filter
        (fun s => s.user_id == u.id && s.is_active)).length ≤ 1 := by
      rw [← hdecomp]
      exact hcount
    obtain ⟨hl₁, hl₂⟩ := all_false_of_filter_le_one
      (p := fun s : EscortSession => s.user_id == u.id && s.is_active)
      (x := sess) hsess hcount'
    have hnone : (updateFirst (fun s => s.id == sess.id)
        (fun s => { s with is_active := false, ended_at := some t1,
                           delete_at := some (t1 + 86400) })
        db.escort_sessions).find?
          (fun s => s.user_id == u.id && s.is_active) = none := by
      rw [hupd]
      apply List.find?_eq_none.mpr
      intro x hx
      rcases List.mem_append.mp hx with hx₁ | hx₂
      · simp [hl₁ x hx₁]
      · rcases List.mem_cons.mp hx₂ with rfl | hx₃
        · simp
        · simp [hl₂ x hx₃]
    rw [escort_stop_eq db u loc1 t1 sess hc hp hfind, stateAfter_ok]
    exact escort_stop_none _ u loc2 t2 hc hp hnone

/-- Witness for the corrected C4: alice deactivates her single active
panic twice (second call is a no-op with the same message); carol stops
her single active session and a second stop is rejected with 404. -/
theorem C4_amended_witness :
    deactivate_panic (deactivate_panic c3_db alice 1).2 alice 2 =
      ("Panic deactivated", (deactivate_panic c3_db alice 1).2) ∧
    escort_action (stateAfter c4b_db (escort_action c4b_db carol "stop" (locAt 6 3 1) 1))
      carol "stop" (locAt 6 3 2) 2 =
      .error { status := 404, detail := "No active session" } :=
  ⟨C4_amended_deactivate_idempotent_stop_not.1 c3_db alice 1 2 (by decide),
   C4_amended_deactivate_idempotent_stop_not.2 c4b_db carol (locAt 6 3 1)
     (locAt 6 3 2) 1 2 c4b_sess rfl rfl (by decide) (by decide) (by decide)⟩

/-- C3 corrected: a successful AppendLocation rewrites exactly the found
aggregate, replacing its trail by the old trail with the submitted entry
appended at the tail — prior entries are neither removed nor reordered
and the length grows by one — and leaves every other record in place;
but the appended timestamp is stored exactly as the client submitted it,
so the trail timestamps need not be non-decreasing. -/
theorem C3_amended_append_only :
    (∀ (db : DB) (u : User) (loc : LocationPoint) (pe : PanicEvent),
       (db.panic_events.map (fun e => e.id)).Nodup →
       db.panic_events.find? (fun e => e.user_id == u.id && e.is_active) = some pe →
       ∃ l₁ l₂, db.panic_events = l₁ ++ pe :: l₂ ∧
         log_panic_location db u loc =
           .ok ("Location logged",
             { db with panic_events :=
                 l₁ ++ ({ pe with locations := pe.locations ++ [panicEntryOf loc] }) :: l₂ })) ∧
    (∀ (db : DB) (u : User) (loc : LocationPoint) (now : ℚ) (sess : EscortSession),
       u.is_premium = true →
       (db.escort_sessions.map (fun s => s.id)).Nodup →
       db.escort_sessions.find? (fun s => s.user_id == u.id && s.is_active) = some sess →
       ∃ l₁ l₂, db.escort_sessions = l₁ ++ sess :: l₂ ∧
         log_escort_location db u loc now =
           .ok ("Location logged",
             { db with
                 escort_sessions :=
                   l₁ ++ ({ sess with locations := sess.locations ++ [escortEntryOf loc] }) :: l₂,
                 civil_tracks :=
                   updateFirst (fun t => t.user_id == u.id && t.is_active)
                     (fun t => { t with
                         currentLocation := { longitude := loc.longitude, latitude := loc.latitude },
                         track_timestamp := now })
                     db.civil_tracks })) :=
  ⟨fun db u loc pe hnodup hfind => log_panic_location_appends db u loc pe hnodup hfind,
   fun db u loc now sess hp hnodup hfind =>
     log_escort_location_appends db u loc now sess hp hnodup hfind⟩

/-- Witness for the corrected C3: appending to alice's active panic and
to carol's active session on concrete stores. -/
theorem C3_amended_witness :
    (∃ l₁ l₂, c3_db.panic_events = l₁ ++ c3_event :: l₂ ∧
       log_panic_location c3_db alice (locAt 6 3 9) =
         .ok ("Location logged",
           { c3_db with panic_events :=
               l₁ ++ ({ c3_event with
                 locations := c3_event.locations ++ [panicEntryOf (locAt 6 3 9)] }) :: l₂ })) ∧
    (∃ l₁ l₂, c4b_db.escort_sessions = l₁ ++ c4b_sess :: l₂ ∧
       log_escort_location c4b_db carol (locAt 6 3 9) 9 =
         .ok ("Location logged",
           { c4b_db with
               escort_sessions :=
                 l₁ ++ ({ c4b_sess with
                   locations := c4b_sess.locations ++ [escortEntryOf (locAt 6 3 9)] }) :: l₂,
               civil_tracks :=
                 updateFirst (fun t => t.user_id == carol.id && t.is_active)
                   (fun t => { t with
                       currentLocation := { longitude := (locAt 6 3 9).longitude,
                                            latitude := (locAt 6 3 9).latitude },
                       track_timestamp := 9 })
                   c4b_db.civil_tracks })) :=
  ⟨C3_amended_append_only.1 c3_db alice (locAt 6 3 9) c3_event (by decide) (by decide),
   C3_amended_append_only.2 c4b_db carol (locAt 6 3 9) 9 c4b_sess rfl (by decide) (by decide)⟩

/-- C7 counterexample: 51 active incidents all lie within bob's own
10 km radius (they sit exactly at his team location, so the full list is
a valid result of the radius query), yet the endpoint returns only 50
rows (to_list(50), server.py lines 896-911): the returned list is not
exactly the set of active incidents within the responder's radius. -/
theorem C7_cex_more_matches_than_cap :
    panicsNearOK c7db.panic_events bobTeam.teamLocation (bobTeam.radius_km * 1000)
      c7panics ∧
    c7panics.length = 51 ∧
    resultOk c7run = true ∧
    (rowsOf c7run).length = 50 := by
  have hres : c7run =
      .ok (((sortActivatedDesc c7panics).take 50).map (panicSummary c7db.users)) := rfl
  refine ⟨⟨?_, ?_⟩, by simp [c7panics], by rw [hres]; rfl, ?_⟩
  · intro e he
    have he' : e ∈ c7panics := he
    obtain ⟨i, hi, hei⟩ := List.mem_map.mp he'
    refine ⟨he, ?_, ?_⟩
    · rw [← hei]
      rfl
    · rw [← hei]
      exact sphereDistLeM_self _ _ (by norm_num [bobTeam])
  · intro e he _ _
    exact he
  · rw [hres]
    simp only [rowsOf]
    rw [List.length_map, List.length_take, (sortActivatedDesc_perm c7panics).length_eq]
    have h51 : c7panics.length = 51 := by simp [c7panics]
    rw [h51]
    exact min_eq_left (by norm_num)

/-- C7 corrected: when the responder has a team record whose location is
set (not the [0,0] default), the endpoint returns the active incidents
within the responder's own radius_km of the team location, ordered by
activation time descending and truncated to 50 rows; every returned row
comes from an active in-radius incident, and when at most 50 incidents
match, exactly the in-radius active incidents are returned.  (With no
team record the endpoint returns an empty list, and with an unset or
[0,0] location it returns all active incidents regardless of distance.) -/
theorem C7_amended_nearby_panics (db : DB) (u : User) (team : SecurityTeam)
    (matched : List PanicEvent)
    (hrole : u.role = "security")
    (hteam : db.security_teams.find? (fun t => t.user_id == u.id) = some team)
    (hloc : (team.teamLocation == ({ longitude := 0, latitude := 0 } : GeoPoint)) = false)
    (hq : panicsNearOK db.panic_events team.teamLocation (team.radius_km * 1000) matched) :
    get_nearby_panics db u matched =
      .ok (((sortActivatedDesc matched).take 50).map (panicSummary db.users)) ∧
    (∀ s ∈ rowsOf (get_nearby_panics db u matched),
       ∃ e, e ∈ db.panic_events ∧ e.is_active = true ∧
         sphereDistLeM team.teamLocation e.location (team.radius_km * 1000) ∧
         s = panicSummary db.users e) ∧
    (matched.length ≤ 50 →
       ∀ e ∈ matched, panicSummary db.users e ∈ rowsOf (get_nearby_panics db u matched)) := by
  have heq : get_nearby_panics db u matched =
      .ok (((sortActivatedDesc matched).take 50).map (panicSummary db.users)) := by
    unfold get_nearby_panics
    rw [if_neg (by simp [hrole]), hteam]
    simp only [hloc, Bool.false_eq_true, if_false]
  refine ⟨heq, ?_, ?_⟩
  · intro s hs
    rw [heq] at hs
    simp only [rowsOf] at hs
    obtain ⟨e, he, rfl⟩ := List.mem_map.mp hs
    have hmem : e ∈ matched :=
      (sortActivatedDesc_perm matched).mem_iff.mp (List.mem_of_mem_take he)
    obtain ⟨h1, h2, h3⟩ := hq.1 e hmem
    exact ⟨e, h1, h2, h3, rfl⟩
  · intro hlen e he
    rw [heq]
    simp only [rowsOf]
    have hmem : e ∈ sortActivatedDesc matched :=
      (sortActivatedDesc_perm matched).mem_iff.mpr he
    rw [List.take_of_length_le
      (by rw [(sortActivatedDesc_perm matched).length_eq]; exact hlen)]
    exact List.mem_map_of_mem _ hmem

/-- Witness for the corrected C7: bob's query over a store with a single
active incident at his own team location returns exactly that
incident's row. -/
theorem C7_amended_witness :
    get_nearby_panics c7w_db bob [c7w_event] =
      .ok (((sortActivatedDesc [c7w_event]).take 50).map (panicSummary c7w_db.users)) ∧
    (∀ s ∈ rowsOf (get_nearby_panics c7w_db bob [c7w_event]),
       ∃ e, e ∈ c7w_db.panic_events ∧ e.is_active = true ∧
         sphereDistLeM bobTeam.teamLocation e.location (bobTeam.radius_km * 1000) ∧
         s = panicSummary c7w_db.users e) ∧
    ([c7w_event].length ≤ 50 →
       ∀ e ∈ [c7w_event],
         panicSummary c7w_db.users e ∈ rowsOf (get_nearby_panics c7w_db bob [c7w_event])) :=
  C7_amended_nearby_panics c7w_db bob bobTeam [c7w_event] rfl (by decide) (by decide)
    ⟨fun e he => by
        rw [List.mem_singleton] at he
        subst he
        exact ⟨List.mem_singleton_self _, rfl, sphereDistLeM_self _ _ (by norm_num [bobTeam])⟩,
     fun e he _ _ => he⟩

end SafeGuard
